import Mathlib

/-!
Verification development for the SmartRaiden punish-test helpers
(`src/cmd/tools/contracttest/channel_punish_test.go`) and the resilient
chain client (`src/network/helper/safeethclient.go`).

Part 1 — byte-level model of `ObseleteUnlockForContract` and its `sign`
method.  Bytes are modelled as `Nat` (each intended `< 256`); a Go byte
slice is a `List Nat`.
-/

set_option autoImplicit false

/-- Big-endian fixed-width byte encoding: `beBytes w x` is the `w`-byte
big-endian encoding of `x`, truncated to the low `w` bytes (this is what
`binary.Write(buf, binary.BigEndian, ·)` produces for a `uint64` when
`w = 8`, and what `utils.BigIntTo32Bytes` produces when `w = 32`). -/
def beBytes (w : Nat) (x : Nat) : List Nat :=
  (List.range w).map (fun i => x / 256 ^ (w - 1 - i) % 256)

/-- The `ObseleteUnlockForContract` struct of
`src/cmd/tools/contracttest/channel_punish_test.go` (lines 83–94).
`common.Hash` fields are 32-byte slices, `common.Address` fields are
20-byte slices, `*big.Int` and `uint64` fields are naturals. -/
structure ObseleteUnlockForContract where
  channelIdentifier : List Nat
  beneficiaryAddress : List Nat
  lockHash : List Nat
  beneficiaryTransferredAmount : Nat
  beneficiaryNonce : Nat
  additionalHash : List Nat
  tokenNetworkAddress : List Nat
  chainID : Nat
  openBlockNumber : Nat
  merkleProof : List Nat
deriving DecidableEq, Repr

/-- The byte string accumulated in `buf` by `ObseleteUnlockForContract.sign`
(test file lines 97–103): lock hash, then channel identifier, then the
8-byte big-endian open block number, then the 32-byte big-endian chain id,
then the additional hash.  The write of `TokenNetworkAddress` is commented
out in the source (line 101) and therefore absent here. -/
def signBytes (w : ObseleteUnlockForContract) : List Nat :=
  w.lockHash ++ w.channelIdentifier ++ beBytes 8 w.openBlockNumber
    ++ beBytes 32 w.chainID ++ w.additionalHash

/-- Failure of the underlying signing primitive `utils.SignData`. -/
inductive SignErr
  | signFailure
deriving DecidableEq, Repr

/-- Outcome of `ObseleteUnlockForContract.sign`: the Go function either
panics (when `utils.SignData` returns an error — the process aborts and
control never returns to the caller) or returns the signature bytes. -/
inductive SignOutcome
  | aborted (e : SignErr)
  | signed (sig : List Nat)
deriving DecidableEq, Repr

/-- `sign` from the test file (lines 96–109).  The primitive
`utils.SignData(key, ·)` is abstracted as `signData` (the key is baked
in); `sign` feeds it exactly `signBytes w` (the contents of `buf`), and
on error executes `panic(err)` — modelled as `SignOutcome.aborted`. -/
def ObseleteUnlockForContract.sign
    (signData : List Nat → Except SignErr (List Nat))
    (w : ObseleteUnlockForContract) : SignOutcome :=
  match signData (signBytes w) with
  | .error e => .aborted e
  | .ok sig => .signed sig

/-- `true` iff the outcome hands control back to the caller (a panic does
not). -/
def SignOutcome.returnsToCaller : SignOutcome → Bool
  | .aborted _ => false
  | .signed _ => true

theorem beBytes_length (w x : Nat) : (beBytes w x).length = w := by
  simp [beBytes]

/-- C1: the byte string hashed and signed by `ObseleteUnlockForContract.sign`
is exactly lock hash ‖ channel identifier ‖ open block number (8 bytes BE)
‖ chain id (32 bytes BE) ‖ additional hash — 136 bytes when the hash
fields have their mandatory 32-byte width — and depends on no other field:
any two values agreeing on those five fields (the token network address,
beneficiary fields, nonce and merkle proof may all differ) are signed over
the same bytes. -/
theorem sign_canonical_byte_layout (w w' : ObseleteUnlockForContract)
    (hlh : w'.lockHash = w.lockHash)
    (hci : w'.channelIdentifier = w.channelIdentifier)
    (hob : w'.openBlockNumber = w.openBlockNumber)
    (hcid : w'.chainID = w.chainID)
    (hah : w'.additionalHash = w.additionalHash)
    (hL1 : w.lockHash.length = 32)
    (hL2 : w.channelIdentifier.length = 32)
    (hL3 : w.additionalHash.length = 32) :
    signBytes w = w.lockHash ++ w.channelIdentifier
        ++ beBytes 8 w.openBlockNumber ++ beBytes 32 w.chainID
        ++ w.additionalHash
      ∧ (signBytes w).length = 136
      ∧ signBytes w' = signBytes w := by
  refine ⟨rfl, ?_, ?_⟩
  · simp [signBytes, beBytes_length, hL1, hL2, hL3]
  · simp [signBytes, hlh, hci, hob, hcid, hah]

/-- A concrete punish request. -/
def ouA : ObseleteUnlockForContract :=
  { channelIdentifier := List.replicate 32 2
    beneficiaryAddress := List.replicate 20 3
    lockHash := List.replicate 32 1
    beneficiaryTransferredAmount := 10
    beneficiaryNonce := 3
    additionalHash := List.replicate 32 0
    tokenNetworkAddress := List.replicate 20 4
    chainID := 8888
    openBlockNumber := 7
    merkleProof := [] }

/-- `ouA` with a different token network address, beneficiary, nonce,
amount and merkle proof, but the same five signed fields. -/
def ouB : ObseleteUnlockForContract :=
  { ouA with
    tokenNetworkAddress := List.replicate 20 9
    beneficiaryAddress := List.replicate 20 7
    beneficiaryTransferredAmount := 99
    beneficiaryNonce := 12
    merkleProof := [1, 2, 3] }

/-- Concrete instance of `sign_canonical_byte_layout`: two requests that
differ in the token network address (and in the beneficiary fields) are
signed over the same 136 bytes. -/
theorem sign_canonical_byte_layout_witness :
    signBytes ouA = ouA.lockHash ++ ouA.channelIdentifier
        ++ beBytes 8 ouA.openBlockNumber ++ beBytes 32 ouA.chainID
        ++ ouA.additionalHash
      ∧ (signBytes ouA).length = 136
      ∧ signBytes ouB = signBytes ouA :=
  sign_canonical_byte_layout ouA ouB rfl rfl rfl rfl rfl
    (by decide) (by decide) (by decide)

/-- A signing primitive that fails on every input (e.g. `utils.SignData`
with an invalid key). -/
def failingSignData : List Nat → Except SignErr (List Nat) :=
  fun _ => .error .signFailure

/-- C6 counterexample: with a failing signing primitive, `sign` on the
concrete request `ouA` panics (`SignOutcome.aborted`) — it does not hand a
typed, recoverable failure back to its caller, refuting the claim that it
does so for every input on which the primitive fails. -/
theorem sign_aborts_on_failure_cex :
    ObseleteUnlockForContract.sign failingSignData ouA
        = .aborted .signFailure
      ∧ (ObseleteUnlockForContract.sign failingSignData ouA).returnsToCaller
        = false := by
  constructor <;> rfl

/-- C6 (amended): whenever the underlying signing primitive fails, `sign`
panics with that error (aborting the process, line 106 of the test file);
it returns to its caller only when the primitive succeeds, and then with
the signature bytes. -/
theorem sign_amended_panic_on_failure
    (signData : List Nat → Except SignErr (List Nat))
    (w : ObseleteUnlockForContract) :
    (∀ e, signData (signBytes w) = .error e
        → ObseleteUnlockForContract.sign signData w = .aborted e)
      ∧ (∀ s, signData (signBytes w) = .ok s
        → ObseleteUnlockForContract.sign signData w = .signed s) := by
  constructor <;> intro v hv <;>
    simp [ObseleteUnlockForContract.sign, hv]

/-- Concrete instance of `sign_amended_panic_on_failure` at the failing
primitive and `ouA`. -/
theorem sign_amended_panic_on_failure_witness :
    failingSignData (signBytes ouA) = .error .signFailure
      ∧ ObseleteUnlockForContract.sign failingSignData ouA
        = .aborted .signFailure :=
  ⟨rfl, (sign_amended_panic_on_failure failingSignData ouA).1
    .signFailure rfl⟩

/-!
Part 2 — model of `SafeEthClient` (`src/network/helper/safeethclient.go`).

Go channels created by `make(chan struct{}, 1)` live on a per-client heap
`chans : List Chan`; a channel value is its index into that heap.  The
`ReConnect` map is an association list from names to channel indices (Go
map iteration order is irrelevant to the properties proved here).  Each
exported operation holds the client's single mutex for the whole mutating
region in the source, so it is modelled as one atomic state transformer.
-/

/-- Connection status (`ConnectionOk = 0`, `ConnectionFailed = 1`). -/
inductive ConnectionStatus
  | connectionOk
  | connectionFailed
deriving DecidableEq, Repr

/-- A Go `chan struct{}`: `buf` signals currently buffered, `cap` the
buffer capacity, `closed` whether `close` has been called. -/
structure Chan where
  buf : Nat
  cap : Nat
  closed : Bool
deriving DecidableEq, Repr

instance : Inhabited Chan := ⟨⟨0, 0, false⟩⟩

/-- `SafeEthClient` (source lines 28–34): the embedded `*ethclient.Client`
(`none` models a nil pointer), the dial url, the `ReConnect` registry and
the status, together with the heap of channels this client has created. -/
structure SafeEthClient where
  client : Option Nat
  url : String
  reConnect : List (String × Nat)
  status : ConnectionStatus
  chans : List Chan
deriving DecidableEq, Repr

/-- Lookup in the `ReConnect` map: `ch, ok := c.ReConnect[name]`. -/
def lookupName : List (String × Nat) → String → Option Nat
  | [], _ => none
  | (k, v) :: t, n => if k = n then some v else lookupName t n

/-- Replace the element at index `i` by `f` of it (no-op out of range). -/
def modifyAt {α : Type} (f : α → α) : Nat → List α → List α
  | _, [] => []
  | 0, x :: t => f x :: t
  | i + 1, x :: t => x :: modifyAt f i t

/-- Effect on one channel of the notify loop body of `RecoverDisconnect`
(lines 83–84): `c <- struct{}{}` buffers one signal, then `close(c)`. -/
def notifyChan (ch : Chan) : Chan :=
  { ch with buf := ch.buf + 1, closed := true }

/-- The notify loop of `RecoverDisconnect` (lines 81–85): deliver one
signal to every channel registered in the map and close it. -/
def notifyAll (chans : List Chan) : List (String × Nat) → List Chan
  | [] => chans
  | p :: t => notifyAll (modifyAt notifyChan p.2 chans) t

/-- The same loop with Go's blocking send made explicit: sending on a
channel whose buffer is full (or on a nil channel) blocks forever, which
this function reports as `none`. -/
def notifyAllBlocking (chans : List Chan) :
    List (String × Nat) → Option (List Chan)
  | [] => some chans
  | p :: t =>
    match chans.get? p.2 with
    | none => none
    | some ch =>
      if ch.buf < ch.cap then
        notifyAllBlocking (modifyAt notifyChan p.2 chans) t
      else
        none

/-- Dial failure (`ethclient.Dial` error). -/
inductive DialErr
  | dialFailure
deriving DecidableEq, Repr

/-- `NewSafeClient` (lines 37–49).  The outcome of `ethclient.Dial(rawurl)`
is passed in as `dialResult`.  The function always returns the freshly
allocated client (with its `ReConnect` map initialized empty) together
with the dial error; `Client` is set only when the dial succeeded. -/
def NewSafeClient (dialResult : Except DialErr Nat) (rawurl : String) :
    SafeEthClient × Option DialErr :=
  match dialResult with
  | .ok conn =>
    ({ client := some conn, url := rawurl, reConnect := [],
       status := .connectionOk, chans := [] }, none)
  | .error e =>
    ({ client := none, url := rawurl, reConnect := [],
       status := .connectionFailed, chans := [] }, some e)

/-- `RegisterReConnectNotify` (lines 52–63): under the lock, return the
already-registered channel if the name is present (only a warning is
logged); otherwise allocate a fresh `make(chan struct{}, 1)` and register
it.  Returns the updated client and the channel handed to the caller. -/
def RegisterReConnectNotify (c : SafeEthClient) (name : String) :
    SafeEthClient × Nat :=
  match lookupName c.reConnect name with
  | some ch => (c, ch)
  | none =>
    let ch := c.chans.length
    ({ c with
        chans := c.chans ++ [{ buf := 0, cap := 1, closed := false }],
        reConnect := c.reConnect ++ [(name, ch)] }, ch)

/-- The successful exit of `RecoverDisconnect` (lines 75–90): once a dial
succeeds with connection `newConn`, set the status to ok and, under the
lock, swap in the new client, send one signal to every registered channel
and close it, then delete every name from the map and return.  (The
preceding retry loop only repeats `ethclient.Dial` and sleeps; it touches
no other state, so the function's effect on return is this branch.) -/
def RecoverDisconnect (c : SafeEthClient) (newConn : Nat) : SafeEthClient :=
  { c with
      status := .connectionOk
      client := some newConn
      chans := notifyAll c.chans c.reConnect
      reConnect := [] }

/-- Registry well-formedness: distinct registered channels, each a live
index into the heap. -/
def RegistryWF (c : SafeEthClient) : Prop :=
  (c.reConnect.map Prod.snd).Nodup
    ∧ ∀ p ∈ c.reConnect, p.2 < c.chans.length

/-- Registry invariant (claim C9): the registered channels are distinct
and each one is exactly as `RegisterReConnectNotify` created it — capacity
1, empty buffer, not closed. -/
def RegistryInv (c : SafeEthClient) : Prop :=
  (c.reConnect.map Prod.snd).Nodup
    ∧ ∀ p ∈ c.reConnect,
        c.chans.get? p.2 = some { buf := 0, cap := 1, closed := false }

instance (c : SafeEthClient) : Decidable (RegistryWF c) := by
  unfold RegistryWF; infer_instance

instance (c : SafeEthClient) : Decidable (RegistryInv c) := by
  unfold RegistryInv; infer_instance

theorem modifyAt_get?_self {α : Type} (f : α → α) (i : Nat) (l : List α) :
    (modifyAt f i l).get? i = (l.get? i).map f := by
  induction l generalizing i with
  | nil => simp [modifyAt]
  | cons x t ih =>
    cases i with
    | zero => simp [modifyAt]
    | succ j => simpa [modifyAt] using ih j

theorem modifyAt_get?_ne {α : Type} (f : α → α) (i j : Nat) (l : List α)
    (h : j ≠ i) : (modifyAt f i l).get? j = l.get? j := by
  induction l generalizing i j with
  | nil => simp [modifyAt]
  | cons x t ih =>
    cases i with
    | zero =>
      cases j with
      | zero => exact absurd rfl h
      | succ k => simp [modifyAt]
    | succ i' =>
      cases j with
      | zero => simp [modifyAt]
      | succ k =>
        simpa [modifyAt] using ih i' k (fun hh => h (by rw [hh]))

theorem notifyAll_get?_not_mem (chans : List Chan)
    (t : List (String × Nat)) (i : Nat) (h : i ∉ t.map Prod.snd) :
    (notifyAll chans t).get? i = chans.get? i := by
  induction t generalizing chans with
  | nil => rfl
  | cons p t ih =>
    simp only [List.map_cons, List.mem_cons] at h
    push_neg at h
    rw [notifyAll, ih _ h.2, modifyAt_get?_ne _ _ _ _ h.1]

theorem notifyAll_get?_mem (chans : List Chan) (t : List (String × Nat))
    (p : String × Nat) (hp : p ∈ t) (hnd : (t.map Prod.snd).Nodup) :
    (notifyAll chans t).get? p.2 = (chans.get? p.2).map notifyChan := by
  induction t generalizing chans with
  | nil => cases hp
  | cons q t ih =>
    simp only [List.map_cons, List.nodup_cons] at hnd
    rw [notifyAll]
    rcases List.mem_cons.mp hp with rfl | h
    · rw [notifyAll_get?_not_mem _ _ _ hnd.1, modifyAt_get?_self]
    · have hne : p.2 ≠ q.2 := fun hh =>
        hnd.1 (hh ▸ List.mem_map_of_mem Prod.snd h)
      rw [ih _ h hnd.2, modifyAt_get?_ne _ _ _ _ hne]

/-- C3: when `RecoverDisconnect` succeeds in re-establishing a connection
and returns, every channel registered in the `ReConnect` registry at that
moment has received exactly one signal — its buffer grew by exactly one
(never zero, never two) and it was closed — and every name has been
removed: the registry is empty on return, so a name must be freshly
re-registered to observe the next reconnect.  The hypothesis (distinct
registered channels) is the invariant `RegisterReConnectNotify`
establishes by always allocating a fresh channel. -/
theorem recoverDisconnect_notifies_exactly_once (c : SafeEthClient)
    (newConn : Nat) (hnd : (c.reConnect.map Prod.snd).Nodup) :
    (RecoverDisconnect c newConn).reConnect = []
      ∧ ∀ p ∈ c.reConnect,
          (RecoverDisconnect c newConn).chans.get? p.2
            = (c.chans.get? p.2).map notifyChan :=
  ⟨rfl, fun p hp => notifyAll_get?_mem c.chans c.reConnect p hp hnd⟩

/-- A client with two pending reconnect registrations, as produced by two
`RegisterReConnectNotify` calls. -/
def clientTwoPending : SafeEthClient :=
  { client := some 1
    url := "ws://127.0.0.1:8546"
    reConnect := [("alice", 0), ("bob", 1)]
    status := .connectionOk
    chans := [{ buf := 0, cap := 1, closed := false },
              { buf := 0, cap := 1, closed := false }] }

/-- Concrete instance of `recoverDisconnect_notifies_exactly_once` on a
client with two registrations. -/
theorem recoverDisconnect_notifies_exactly_once_witness :
    (clientTwoPending.reConnect.map Prod.snd).Nodup
      ∧ ((RecoverDisconnect clientTwoPending 5).reConnect = []
        ∧ ∀ p ∈ clientTwoPending.reConnect,
            (RecoverDisconnect clientTwoPending 5).chans.get? p.2
              = (clientTwoPending.chans.get? p.2).map notifyChan) :=
  ⟨by decide,
   recoverDisconnect_notifies_exactly_once clientTwoPending 5 (by decide)⟩

/-- C4: `RegisterReConnectNotify` is idempotent per name between firings —
when `name` is already registered with pending channel `ch` (a registered
channel is pending precisely until `RecoverDisconnect` fires and removes
it), a further call returns that very channel and leaves the whole client
(registry and channel heap included) unchanged, allocating no fresh
channel and returning no error (the Go function only logs a warning);
consequently a second call right after a first one returns exactly what
the first returned. -/
theorem registerReConnectNotify_idempotent (c : SafeEthClient)
    (name : String) (ch : Nat)
    (h : lookupName c.reConnect name = some ch) :
    RegisterReConnectNotify c name = (c, ch)
      ∧ RegisterReConnectNotify (RegisterReConnectNotify c name).1 name
        = RegisterReConnectNotify c name := by
  have h1 : RegisterReConnectNotify c name = (c, ch) := by
    simp [RegisterReConnectNotify, h]
  refine ⟨h1, ?_⟩
  rw [h1]
  exact h1

/-- Concrete instance of `registerReConnectNotify_idempotent`:
re-registering `"alice"` on `clientTwoPending` returns the pending
channel `0` and changes nothing. -/
theorem registerReConnectNotify_idempotent_witness :
    lookupName clientTwoPending.reConnect "alice" = some 0
      ∧ (RegisterReConnectNotify clientTwoPending "alice"
          = (clientTwoPending, 0)
        ∧ RegisterReConnectNotify
            (RegisterReConnectNotify clientTwoPending "alice").1 "alice"
          = RegisterReConnectNotify clientTwoPending "alice") :=
  ⟨by decide,
   registerReConnectNotify_idempotent clientTwoPending "alice" 0 (by decide)⟩

theorem get?_some_lt {l : List Chan} {i : Nat} {x : Chan}
    (h : l.get? i = some x) : i < l.length := by
  by_contra hge
  rw [List.get?_eq_none.mpr (Nat.le_of_not_lt hge)] at h
  cases h

theorem notifyAllBlocking_eq (chans : List Chan) (t : List (String × Nat))
    (hnd : (t.map Prod.snd).Nodup)
    (hfresh : ∀ p ∈ t,
      chans.get? p.2 = some { buf := 0, cap := 1, closed := false }) :
    notifyAllBlocking chans t = some (notifyAll chans t) := by
  induction t generalizing chans with
  | nil => rfl
  | cons q t ih =>
    simp only [List.map_cons, List.nodup_cons] at hnd
    have hq := hfresh q (List.mem_cons_self q t)
    rw [notifyAllBlocking, hq]
    simp only [Nat.zero_lt_one, if_true]
    rw [notifyAll]
    refine ih (modifyAt notifyChan q.2 chans) hnd.2 (fun p hp => ?_)
    rw [modifyAt_get?_ne _ _ _ _
      (fun hh => hnd.1 (by rw [← hh]; exact List.mem_map_of_mem Prod.snd hp))]
    exact hfresh p (List.mem_cons_of_mem q hp)

theorem registerReConnectNotify_preserves_inv (c : SafeEthClient)
    (name : String) (h : RegistryInv c) :
    RegistryInv (RegisterReConnectNotify c name).1 := by
  obtain ⟨hnd, hfresh⟩ := h
  unfold RegisterReConnectNotify
  cases hl : lookupName c.reConnect name with
  | some ch => exact ⟨hnd, hfresh⟩
  | none =>
    simp only
    constructor
    · rw [List.map_append]
      refine List.Nodup.append hnd (List.nodup_singleton _) ?_
      intro a ha hb
      simp only [List.map_cons, List.map_nil, List.mem_singleton] at hb
      subst hb
      obtain ⟨p, hp, hps⟩ := List.mem_map.mp ha
      exact absurd (hps ▸ get?_some_lt (hfresh p hp))
        (lt_irrefl c.chans.length)
    · intro p hp
      rcases List.mem_append.mp hp with hp | hp
      · have hg := hfresh p hp
        rw [List.get?_append (get?_some_lt hg)]
        exact hg
      · simp only [List.mem_singleton] at hp
        subst hp
        exact List.get?_concat_length c.chans _

/-- C9: invariant of the `ReConnect` registry — every registered channel
is exactly as `RegisterReConnectNotify` created it (`make(chan struct{},
1)`: capacity 1, empty buffer, open) and all registered channels are
distinct.  The invariant is preserved by `RegisterReConnectNotify` and by
`RecoverDisconnect` (which empties the registry), and under it the notify
loop of `RecoverDisconnect` — whose sends block when a buffer is full —
completes without ever blocking, delivering one signal per channel, even
with no receiver waiting. -/
theorem reConnect_channels_capacity_one (c : SafeEthClient) (name : String)
    (newConn : Nat) (h : RegistryInv c) :
    RegistryInv (RegisterReConnectNotify c name).1
      ∧ RegistryInv (RecoverDisconnect c newConn)
      ∧ notifyAllBlocking c.chans c.reConnect
          = some (notifyAll c.chans c.reConnect) := by
  refine ⟨registerReConnectNotify_preserves_inv c name h, ⟨?_, ?_⟩, ?_⟩
  · simp [RecoverDisconnect]
  · simp [RecoverDisconnect]
  · exact notifyAllBlocking_eq c.chans c.reConnect h.1 h.2

/-- Concrete instance of `reConnect_channels_capacity_one` on a client
with two pending registrations. -/
theorem reConnect_channels_capacity_one_witness :
    RegistryInv clientTwoPending
      ∧ (RegistryInv (RegisterReConnectNotify clientTwoPending "carol").1
        ∧ RegistryInv (RecoverDisconnect clientTwoPending 5)
        ∧ notifyAllBlocking clientTwoPending.chans clientTwoPending.reConnect
            = some (notifyAll clientTwoPending.chans
                clientTwoPending.reConnect)) :=
  ⟨by decide, reConnect_channels_capacity_one clientTwoPending "carol" 5
    (by decide)⟩

/-- C8: `NewSafeClient` always returns the freshly allocated client
together with the dial error.  In both branches the `ReConnect` registry
is initialized empty (and satisfies the registry invariant, so the caller
may register notifications and run `RecoverDisconnect` immediately), the
url is recorded, and the status is `ConnectionOk` exactly when the dial
succeeded — after a failed dial the client is still returned, with a nil
embedded `Client` and status `ConnectionFailed`. -/
theorem newSafeClient_total (d : Except DialErr Nat) (rawurl : String) :
    (NewSafeClient d rawurl).1.reConnect = []
      ∧ (NewSafeClient d rawurl).1.url = rawurl
      ∧ RegistryInv (NewSafeClient d rawurl).1
      ∧ (∀ conn, d = .ok conn →
          (NewSafeClient d rawurl).1.status = .connectionOk
            ∧ (NewSafeClient d rawurl).1.client = some conn
            ∧ (NewSafeClient d rawurl).2 = none)
      ∧ (∀ e, d = .error e →
          (NewSafeClient d rawurl).1.status = .connectionFailed
            ∧ (NewSafeClient d rawurl).1.client = none
            ∧ (NewSafeClient d rawurl).2 = some e) := by
  cases d <;>
    simp [NewSafeClient, RegistryInv]

/-- Concrete instance of `newSafeClient_total` after a failed dial. -/
theorem newSafeClient_total_witness :
    (NewSafeClient (.error .dialFailure) "ws://127.0.0.1:8546").1.reConnect
        = []
      ∧ (NewSafeClient (.error .dialFailure) "ws://127.0.0.1:8546").1.status
        = .connectionFailed
      ∧ (NewSafeClient (.error .dialFailure) "ws://127.0.0.1:8546").2
        = some .dialFailure :=
  have h := newSafeClient_total (.error .dialFailure) "ws://127.0.0.1:8546"
  ⟨h.1, (h.2.2.2.2 .dialFailure rfl).1, (h.2.2.2.2 .dialFailure rfl).2.2⟩

/-- The mutating operations of a `SafeEthClient`.  Each one holds the
instance's single mutex across its whole mutating region in the source
(`RegisterReConnectNotify` lines 53–54, the swap/notify/retire block of
`RecoverDisconnect` lines 78–89), so each is one atomic step here. -/
inductive ClientOp
  | register (name : String)
  | recover (newConn : Nat)
deriving DecidableEq, Repr

/-- Apply a mutating operation to one client instance. -/
def applyOp (op : ClientOp) (c : SafeEthClient) : SafeEthClient :=
  match op with
  | .register name => (RegisterReConnectNotify c name).1
  | .recover newConn => RecoverDisconnect c newConn

/-- A world of independently created `SafeEthClient` instances;
`worldApply w i op` runs `op` on the `i`-th instance.  Each instance owns
its `ReConnect` registry as a struct field (source lines 28–34); there is
no package-level registry in `src/network/helper/safeethclient.go`. -/
def worldApply (w : List SafeEthClient) (i : Nat) (op : ClientOp) :
    List SafeEthClient :=
  modifyAt (applyOp op) i w

/-- C7: the pending-notification registry is per-instance, not a
process-wide global — registering, notifying or retiring on instance `i`
leaves every other instance (its registry and all its other fields)
exactly unchanged.  Atomicity is reflected in `ClientOp`: each operation
is a single step performed under its own instance's lock. -/
theorem registry_per_instance_frame (w : List SafeEthClient) (i j : Nat)
    (op : ClientOp) (hij : j ≠ i) :
    (worldApply w i op).get? j = w.get? j :=
  modifyAt_get?_ne (applyOp op) i j w hij

/-- A second, independently dialed client. -/
def clientOther : SafeEthClient :=
  { client := some 2
    url := "ws://10.0.0.2:8546"
    reConnect := [("carol", 0)]
    status := .connectionOk
    chans := [{ buf := 0, cap := 1, closed := false }] }

/-- Concrete instance of `registry_per_instance_frame`: registering on
instance 0 leaves instance 1 untouched. -/
theorem registry_per_instance_frame_witness :
    (worldApply [clientTwoPending, clientOther] 0
        (.register "dave")).get? 1
      = [clientTwoPending, clientOther].get? 1 :=
  registry_per_instance_frame [clientTwoPending, clientOther] 0 1
    (.register "dave") (by decide)

/-- The 28 capability methods wrapped by `SafeEthClient` (source lines
97–292), in source order. -/
inductive CapabilityMethod
  | blockByHash
  | blockByNumber
  | headerByHash
  | headerByNumber
  | transactionByHash
  | transactionSender
  | transactionCount
  | transactionInBlock
  | transactionReceipt
  | syncProgress
  | subscribeNewHead
  | networkID
  | balanceAt
  | storageAt
  | codeAt
  | nonceAt
  | filterLogs
  | subscribeFilterLogs
  | pendingBalanceAt
  | pendingStorageAt
  | pendingCodeAt
  | pendingNonceAt
  | pendingTransactionCount
  | callContract
  | pendingCallContract
  | suggestGasPrice
  | estimateGas
  | sendTransaction
deriving DecidableEq, Repr

/-- Failure of an underlying `ethclient` call. -/
inductive CallErr
  | chainUnavailable
deriving DecidableEq, Repr

/-- The underlying `*ethclient.Client`: how each capability method of the
connection identified by the `Option Nat` responds to encoded arguments. -/
structure EthEnv where
  respond : CapabilityMethod → Option Nat → List Nat →
    Except CallErr (List Nat)

/-- The capability wrappers (source lines 97–292).  Every wrapper has the
same shape: take the client's mutex, invoke the corresponding method on
the embedded `c.Client`, release the mutex, and return that result — no
wrapper assigns to any field of `c`.  Arguments and results are encoded
as byte lists. -/
def callCapability (env : EthEnv) (m : CapabilityMethod)
    (c : SafeEthClient) (args : List Nat) :
    SafeEthClient × Except CallErr (List Nat) :=
  match m with
  | .blockByHash => (c, env.respond .blockByHash c.client args)
  | .blockByNumber => (c, env.respond .blockByNumber c.client args)
  | .headerByHash => (c, env.respond .headerByHash c.client args)
  | .headerByNumber => (c, env.respond .headerByNumber c.client args)
  | .transactionByHash => (c, env.respond .transactionByHash c.client args)
  | .transactionSender => (c, env.respond .transactionSender c.client args)
  | .transactionCount => (c, env.respond .transactionCount c.client args)
  | .transactionInBlock =>
    (c, env.respond .transactionInBlock c.client args)
  | .transactionReceipt =>
    (c, env.respond .transactionReceipt c.client args)
  | .syncProgress => (c, env.respond .syncProgress c.client args)
  | .subscribeNewHead => (c, env.respond .subscribeNewHead c.client args)
  | .networkID => (c, env.respond .networkID c.client args)
  | .balanceAt => (c, env.respond .balanceAt c.client args)
  | .storageAt => (c, env.respond .storageAt c.client args)
  | .codeAt => (c, env.respond .codeAt c.client args)
  | .nonceAt => (c, env.respond .nonceAt c.client args)
  | .filterLogs => (c, env.respond .filterLogs c.client args)
  | .subscribeFilterLogs =>
    (c, env.respond .subscribeFilterLogs c.client args)
  | .pendingBalanceAt => (c, env.respond .pendingBalanceAt c.client args)
  | .pendingStorageAt => (c, env.respond .pendingStorageAt c.client args)
  | .pendingCodeAt => (c, env.respond .pendingCodeAt c.client args)
  | .pendingNonceAt => (c, env.respond .pendingNonceAt c.client args)
  | .pendingTransactionCount =>
    (c, env.respond .pendingTransactionCount c.client args)
  | .callContract => (c, env.respond .callContract c.client args)
  | .pendingCallContract =>
    (c, env.respond .pendingCallContract c.client args)
  | .suggestGasPrice => (c, env.respond .suggestGasPrice c.client args)
  | .estimateGas => (c, env.respond .estimateGas c.client args)
  | .sendTransaction => (c, env.respond .sendTransaction c.client args)

/-- C10: every capability wrapper of `SafeEthClient` — `BlockByHash`
through `SendTransaction` — is read-only on the client state: whatever
the environment answers, the url, `ReConnect` registry, status, embedded
client and channel heap come back exactly as they were.  Among the
operations of this file only `NewSafeClient`, `RegisterReConnectNotify`
and `RecoverDisconnect` construct a changed client. -/
theorem capability_wrappers_read_only (env : EthEnv)
    (m : CapabilityMethod) (c : SafeEthClient) (args : List Nat) :
    (callCapability env m c args).1 = c := by
  cases m <;> rfl

/-!
Part 3 — the worked punish scenario (`TestChannelPunishRight`, test file
lines 17–58).  The `TokenNetwork` contract, the `mtree` merkle package
and the test helpers (`createPartnerBalanceProof`, `createLock`,
`waitToPunish`) are code of this repository that is not under `src/`;
they are modelled from the spec (§3, §4.1, §4.3, §6, §8) below.  Hash
values are abstract naturals; `hashCombine` is an injective stand-in for
the keccak compression, and signatures are symbolic (a signature is the
signing key together with the signed message). -/

/-- Modelled from the spec: stand-in for the hash combining two values
(keccak in `mtree`); injective pairing so distinct inputs give distinct
digests. -/
def hashCombine (a b : Nat) : Nat := (a + b) * (a + b + 1) / 2 + b + 1

/-- Modelled from the spec (§3): internal merkle node hashing
canonicalizes sibling order by comparing the two hash values, so proof
verification is independent of insertion order. -/
def hashPair (a b : Nat) : Nat :=
  if a ≤ b then hashCombine a b else hashCombine b a

/-- Modelled from the spec (§4.1): the defined `EMPTY_ROOT` constant for
an empty lock set (`utils.EmptyHash` in the test). -/
def emptyRoot : Nat := 0

def insertSorted (x : Nat) : List Nat → List Nat
  | [] => [x]
  | y :: t => if x ≤ y then x :: y :: t else y :: insertSorted x t

/-- Modelled from the spec (§3): `Build` commits to the leaf set
order-independently, realized by sorting the leaf hashes. -/
def sortHashes (l : List Nat) : List Nat := l.foldr insertSorted []

/-- One level-up step of the merkle tree: hash adjacent pairs, promote a
trailing unpaired node. -/
def combineLevel : List Nat → List Nat
  | [] => []
  | [a] => [a]
  | a :: b :: t => hashPair a b :: combineLevel t

def merkleRootAux : Nat → List Nat → Nat
  | _, [] => emptyRoot
  | _, [a] => a
  | 0, _ :: _ :: _ => emptyRoot
  | fuel + 1, a :: b :: t => merkleRootAux fuel (combineLevel (a :: b :: t))

/-- Modelled from the spec (§4.1): `mtree.NewMerkleTree(locks).MerkleRoot()`
— the 32-byte commitment over the set of leaf hashes; empty input yields
`EMPTY_ROOT`.  The fuel (`length` suffices, each level at least halves)
only drives termination. -/
def merkleRoot (leaves : List Nat) : Nat :=
  merkleRootAux leaves.length (sortHashes leaves)

def indexOfLeaf : List Nat → Nat → Option Nat
  | [], _ => none
  | x :: t, v => if x = v then some 0 else (indexOfLeaf t v).map (· + 1)

def proofSiblings : Nat → List Nat → Nat → List Nat
  | _, [], _ => []
  | _, [_], _ => []
  | 0, _ :: _ :: _, _ => []
  | fuel + 1, a :: b :: t, i =>
    let l := a :: b :: t
    let sib := if i % 2 = 0 then l.get? (i + 1) else l.get? (i - 1)
    (match sib with
     | some s => [s]
     | none => []) ++ proofSiblings fuel (combineLevel l) (i / 2)

/-- Modelled from the spec (§4.1): `MakeProof` — the ordered sequence of
sibling hashes sufficient to recompute the root (positions are not
needed because `hashPair` canonicalizes sibling order); `none` when the
leaf is absent (`ProofNotFound`). -/
def makeProof (leaves : List Nat) (leaf : Nat) : Option (List Nat) :=
  let sorted := sortHashes leaves
  (indexOfLeaf sorted leaf).map (fun i => proofSiblings sorted.length sorted i)

/-- Modelled from the spec (§4.1): `VerifyProof` — pure recomputation of
the root from the leaf hash and the sibling sequence, exactly the
verification the on-chain validator runs. -/
def verifyProof (leaf : Nat) (proof : List Nat) (root : Nat) : Bool :=
  proof.foldl hashPair leaf == root

/-- Modelled from the spec (§3): a pending lock — amount, expiration and
secret hash; `createLock(n, amount)` in the test makes `n` of these with
distinct secrets. -/
structure MLock where
  amount : Nat
  expiration : Nat
  secretHash : Nat
deriving DecidableEq, Repr

/-- Modelled from the spec (§3): the deterministic leaf hash of a lock
(`Lock.Hash()` in `mtree`). -/
def MLock.hash (l : MLock) : Nat :=
  hashCombine l.amount (hashCombine l.expiration l.secretHash)

/-- A symbolic ECDSA signature: the signing key (identified with the
signer's address) together with the signed message. -/
structure Signature where
  signer : Nat
  message : List Nat
deriving DecidableEq, Repr

def signMsg (key : Nat) (msg : List Nat) : Signature := ⟨key, msg⟩

def verifySig (addr : Nat) (msg : List Nat) (sig : Signature) : Bool :=
  sig.signer == addr && sig.message == msg

/-- Modelled from the spec (§3/§4.2): the canonical encoding of the
balance-proof fields that is signed — a fixed concatenation of channel
identifier, open block number, chain identifier, transferred amount,
lock commitment, nonce and additional hash. -/
def balanceProofMessage (channelIdentifier openBlockNumber chainID
    transferAmount locksRoot nonce additionalHash : Nat) : List Nat :=
  [channelIdentifier, openBlockNumber, chainID, transferAmount,
   locksRoot, nonce, additionalHash]

/-- Modelled from the spec (§3): the fixed concatenation signed in a
punish request — lock hash, channel identifier, open block number, chain
identifier, additional hash (the layout proved byte-exact in Part 1). -/
def punishMessage (lockHash channelIdentifier openBlockNumber chainID
    additionalHash : Nat) : List Nat :=
  [lockHash, channelIdentifier, openBlockNumber, chainID, additionalHash]

/-- Modelled from the spec (§3): a balance proof as submitted on-chain. -/
structure BalanceProofData where
  channelIdentifier : Nat
  openBlockNumber : Nat
  chainID : Nat
  transferAmount : Nat
  locksRoot : Nat
  nonce : Nat
  additionalHash : Nat
  signature : Signature
deriving DecidableEq, Repr

/-- Modelled from the spec: the test helper `createPartnerBalanceProof`
— a balance proof for the given channel, signed by the partner's key. -/
def createPartnerBalanceProof (channelIdentifier openBlockNumber
    chainID : Nat) (partnerKey : Nat)
    (transferAmount locksRoot additionalHash nonce : Nat) :
    BalanceProofData :=
  { channelIdentifier := channelIdentifier
    openBlockNumber := openBlockNumber
    chainID := chainID
    transferAmount := transferAmount
    locksRoot := locksRoot
    nonce := nonce
    additionalHash := additionalHash
    signature := signMsg partnerKey
      (balanceProofMessage channelIdentifier openBlockNumber chainID
        transferAmount locksRoot nonce additionalHash) }

/-- Channel lifecycle states (spec §4.3). -/
inductive ChannelLifecycle
  | opened
  | closed
  | updated
  | punished
  | settled
deriving DecidableEq, Repr

/-- Error taxonomy of the dispute transitions (spec §7). -/
inductive ContractError
  | validationError
  | signatureMismatch
  | staleNonce
  | noPriorUpdate
  | windowExpired
  | channelFinalized
  | proofNotFound
deriving DecidableEq, Repr

/-- Modelled from the spec (§3 Channel, §4.3): the on-chain state the
`TokenNetwork` contract keeps per channel.  `nonce1`/`nonce2` are the
latest recorded nonces of each participant's own proof stream (0 when
none was recorded); `locksRoot` is the single recorded lock commitment,
replaced on update (§4.3). -/
structure TNChannel where
  participant1 : Nat
  participant2 : Nat
  channelIdentifier : Nat
  openBlockNumber : Nat
  chainID : Nat
  settleTimeout : Nat
  punishWindow : Nat
  deposit1 : Nat
  deposit2 : Nat
  lifecycle : ChannelLifecycle
  closedBlock : Nat
  updatedBlock : Nat
  locksRoot : Nat
  nonce1 : Nat
  nonce2 : Nat
deriving DecidableEq, Repr

/-- The recorded nonce of a participant's own stream (spec §4.3: update
compares only against this, never the other signer's). -/
def TNChannel.nonceOf (ch : TNChannel) (addr : Nat) : Option Nat :=
  if addr = ch.participant1 then some ch.nonce1
  else if addr = ch.participant2 then some ch.nonce2
  else none

def TNChannel.setNonce (ch : TNChannel) (addr : Nat) (n : Nat) :
    TNChannel :=
  if addr = ch.participant1 then { ch with nonce1 := n }
  else if addr = ch.participant2 then { ch with nonce2 := n }
  else ch

def TNChannel.isTerminal (ch : TNChannel) : Bool :=
  ch.lifecycle == .punished || ch.lifecycle == .settled

/-- Modelled from the spec (§4.3 Close, §6 `CloseChannel`): `Opened →
Closed`, requiring the proof to verify under the counterparty's key and
to reference this channel; records the proof (commitment and the
counterparty's nonce) and the close height. -/
def closeChannel (ch : TNChannel) (closer counterparty : Nat)
    (bp : BalanceProofData) (now : Nat) : Except ContractError TNChannel :=
  if ch.isTerminal then .error .channelFinalized
  else if ch.lifecycle != .opened then .error .validationError
  else if !((closer == ch.participant1 && counterparty == ch.participant2)
      || (closer == ch.participant2 && counterparty == ch.participant1))
    then .error .validationError
  else if bp.channelIdentifier != ch.channelIdentifier
      || bp.openBlockNumber != ch.openBlockNumber
      || bp.chainID != ch.chainID
    then .error .validationError
  else if !verifySig counterparty
      (balanceProofMessage bp.channelIdentifier bp.openBlockNumber
        bp.chainID bp.transferAmount bp.locksRoot bp.nonce
        bp.additionalHash) bp.signature
    then .error .signatureMismatch
  else .ok (({ ch with
      lifecycle := .closed
      closedBlock := now
      locksRoot := bp.locksRoot }).setNonce counterparty bp.nonce)

/-- Modelled from the spec (§4.3 UpdateBalanceProof, §6): `Closed →
Updated`, only while the settle timeout from the close height has not
elapsed; the new proof's nonce must exceed the nonce of the *signer's
own* previous proof recorded for this channel — it is never compared
against the other signer's stream — else `StaleNonce`; replaces the
recorded lock commitment. -/
def updateBalanceProof (ch : TNChannel) (proofSigner : Nat)
    (bp : BalanceProofData) (now : Nat) : Except ContractError TNChannel :=
  if ch.isTerminal then .error .channelFinalized
  else if ch.lifecycle != .closed then .error .validationError
  else if now > ch.closedBlock + ch.settleTimeout then .error .windowExpired
  else if bp.channelIdentifier != ch.channelIdentifier
      || bp.openBlockNumber != ch.openBlockNumber
      || bp.chainID != ch.chainID
    then .error .validationError
  else match ch.nonceOf proofSigner with
  | none => .error .validationError
  | some prev =>
    if !verifySig proofSigner
        (balanceProofMessage bp.channelIdentifier bp.openBlockNumber
          bp.chainID bp.transferAmount bp.locksRoot bp.nonce
          bp.additionalHash) bp.signature
      then .error .signatureMismatch
    else if bp.nonce ≤ prev then .error .staleNonce
    else .ok (({ ch with
        lifecycle := .updated
        updatedBlock := now
        locksRoot := bp.locksRoot }).setNonce proofSigner bp.nonce)

/-- Modelled from the spec (§4.3 PunishObsoleteUnlock, §6, §8):
allowed only after an update (`NoPriorUpdate` otherwise) and strictly
inside the punish window measured from the update (`WindowExpired` at or
past the boundary — the documented boundary rule here is strict `<`);
verifies the merkle inclusion of the lock hash against the recorded lock
commitment and the offending signer's signature over the fixed punish
concatenation.  (§8's worked scenario and the test check inclusion
against the commitment recorded by the update, which is what the single
recorded commitment of §4.3 holds at punish time.) -/
def punishObsoleteUnlock (ch : TNChannel) (beneficiary cheater : Nat)
    (lockHash additionalHash : Nat) (merkleProof : List Nat)
    (sig : Signature) (now : Nat) : Except ContractError TNChannel :=
  if ch.isTerminal then .error .channelFinalized
  else if ch.lifecycle != .updated then .error .noPriorUpdate
  else if !((beneficiary == ch.participant1 && cheater == ch.participant2)
      || (beneficiary == ch.participant2 && cheater == ch.participant1))
    then .error .validationError
  else if !(now < ch.updatedBlock + ch.punishWindow)
    then .error .windowExpired
  else if !verifyProof lockHash merkleProof ch.locksRoot
    then .error .proofNotFound
  else if !verifySig cheater
      (punishMessage lockHash ch.channelIdentifier ch.openBlockNumber
        ch.chainID additionalHash) sig
    then .error .signatureMismatch
  else .ok { ch with lifecycle := .punished }

/-- Scenario constants (test lines 21–27): self = participant 1 with
deposit 25, partner = participant 2 with deposit 20, settle timeout
`TestSettleTimeoutMin + 1 = 7`, channel opened at block 100. -/
def scenarioChannel : TNChannel :=
  { participant1 := 1
    participant2 := 2
    channelIdentifier := 77
    openBlockNumber := 100
    chainID := 8888
    settleTimeout := 7
    punishWindow := 5
    deposit1 := 25
    deposit2 := 20
    lifecycle := .opened
    closedBlock := 0
    updatedBlock := 0
    locksRoot := emptyRoot
    nonce1 := 0
    nonce2 := 0 }

/-- The partner's proof used by self to close (test line 30): amount 10,
empty lock commitment, nonce 3, signed by the partner (key 2). -/
def bpPartner : BalanceProofData :=
  createPartnerBalanceProof 77 100 8888 2 10 emptyRoot 0 3

/-- `createLock(20, big.NewInt(1))` (test line 35): 20 locks of amount 1
each, with distinct secrets. -/
def locksSelf : List MLock :=
  (List.range 20).map
    (fun i => { amount := 1, expiration := 200, secretHash := 3000 + i })

def leafHashes : List Nat := locksSelf.map MLock.hash

/-- Self's proof carried by the partner's update (test line 38): amount
0, the 20-lock commitment, nonce 1, signed by self (key 1). -/
def bpSelf : BalanceProofData :=
  createPartnerBalanceProof 77 100 8888 1 0 (merkleRoot leafHashes) 0 1

/-- `CloseChannel` submitted by self at block 101 (test line 31). -/
def scenarioAfterClose : Except ContractError TNChannel :=
  closeChannel scenarioChannel 1 2 bpPartner 101

/-- `UpdateBalanceProof` submitted by the partner at block 102 with
self's proof (test line 39): the proof signer is self, whose recorded
stream is still at nonce 0. -/
def scenarioAfterUpdate : Except ContractError TNChannel :=
  scenarioAfterClose.bind (fun ch => updateBalanceProof ch 1 bpSelf 102)

/-- The hash of `locksSelf[0]` (test line 51). -/
def lockHash0 : Nat := MLock.hash { amount := 1, expiration := 200, secretHash := 3000 }

/-- `mp.MakeProof(locksSelf[0].Hash())` (test line 53). -/
def proof0 : List Nat := (makeProof leafHashes lockHash0).getD []

/-- The partner's signature over the punish concatenation
(`ou.sign(partner.Key)`, test line 55). -/
def sig0 : Signature := signMsg 2 (punishMessage lockHash0 77 100 8888 0)

/-- `PunishObsoleteUnlock` submitted by self at block 104, strictly
inside the punish window `[102, 107)` (test lines 43–55). -/
def scenarioAfterPunish : Except ContractError TNChannel :=
  scenarioAfterUpdate.bind
    (fun ch => punishObsoleteUnlock ch 1 2 lockHash0 0 proof0 sig0 104)

/-- The same update proof but signed by the partner: within the
partner's own stream nonce 1 would be stale after the close-time 3. -/
def bpPartnerStale : BalanceProofData :=
  createPartnerBalanceProof 77 100 8888 2 0 (merkleRoot leafHashes) 0 1

/-- C2: the worked punish scenario — deposits 25/20; self closes with the
partner's amount-10, empty-commitment proof at nonce 3; the partner
updates with self's proof at nonce 1 carrying the 20×1-lock commitment;
self punishes one of those locks with a valid merkle proof and the
partner's signature strictly inside the window.  Every call succeeds:
the close records nonce 3 in the partner's stream, the update accepts
nonce 1 because it is compared only against self's own stream (still 0),
and the punish lands in `Punished`.  The final conjunct shows the
contrast: the same nonce-1 proof in the partner's own stream is rejected
with `StaleNonce` — nonces are never compared across signers. -/
theorem worked_punish_scenario :
    scenarioAfterClose.map (fun ch => (ch.lifecycle, ch.nonce1, ch.nonce2))
        = .ok (.closed, 0, 3)
      ∧ scenarioAfterUpdate.map
          (fun ch => (ch.lifecycle, ch.nonce1, ch.nonce2))
        = .ok (.updated, 1, 3)
      ∧ scenarioAfterPunish.map (fun ch => ch.lifecycle) = .ok .punished
      ∧ scenarioAfterClose.bind
          (fun ch => updateBalanceProof ch 2 bpPartnerStale 102)
        = .error .staleNonce := by
  refine ⟨?_, ?_, ?_, ?_⟩ <;> rfl
